import Mathlib

/-!
Verification of the CephForge execution-orchestration core against its
specification.  The Python source is shallowly embedded: each relevant
function is translated into an executable Lean definition over explicit
inputs (remote-command outcomes, check results, stop-request timing),
and the spec claims are stated and settled as theorems about those
definitions.

Module map:
* `Workload`          — src/common/models/workload.py (IOConfig validation)
* `WorkloadExecutor`  — src/manager/core/workload_executor.py
* `MetricsApi`        — src/manager/api/routes/metrics.py + DataStore.read_metrics
* `PrecheckRunner`    — src/manager/prechecks/runner.py
* `SSHClient`         — src/manager/deployment/ssh_client.py
* `DataStore`         — src/manager/storage/data_store.py
* `ExecutionEngine`   — src/manager/core/execution_engine.py
-/

namespace Workload

/-- read_percent bounds from pydantic: `Field(ge=0, le=100)`. -/
def percentInRange (p : Int) : Bool :=
  decide (0 ≤ p) && decide (p ≤ 100)

/-- Embeds `IOConfig.validate_rw_percent` (src/common/models/workload.py:106-114):
field validator on write_percent; read_percent is already validated when it
runs.  If read + write is not 100, write_percent is auto-adjusted. -/
def validate_rw_percent (read_pct v : Int) : Int :=
  if read_pct + v ≠ 100 then 100 - read_pct else v

/-- The read/write percentage fields of a validated IOConfig. -/
structure IOConfigPercents where
  read_percent : Int
  write_percent : Int
deriving Repr, DecidableEq

/-- Construction of an IOConfig from input read/write percentages, as pydantic
performs it: the `ge=0, le=100` field constraints are checked on the raw
inputs, then the write_percent validator runs with the validated
read_percent in scope. -/
def mkIOConfig (read_pct write_pct : Int) : Option IOConfigPercents :=
  if percentInRange read_pct then
    if percentInRange write_pct then
      some { read_percent := read_pct,
             write_percent := validate_rw_percent read_pct write_pct }
    else none
  else none

end Workload

namespace WorkloadExecutor

/-- The arguments of the emitted FIO command line, one constructor per flag
that `_build_fio_command` (src/manager/core/workload_executor.py:613-669)
can append.  `render` below recovers the literal flag text. -/
inductive FioArg where
  | fio
  | name (s : String)
  | directory (s : String)
  | rw (s : String)
  | bs (s : String)
  | size (s : String)
  | numjobs (n : Int)
  | iodepth (n : Int)
  | runtime (n : Int)
  | time_based
  | group_reporting
  | outputFormatJson
  | rwmixread (p : Int)
  | direct1
  | ramp_time (n : Int)
  | ioengineLibaio
  | endFsync1
deriving Repr, DecidableEq

/-- Literal command-line text of each argument. -/
def FioArg.render : FioArg → String
  | .fio => "fio"
  | .name s => "--name=" ++ s
  | .directory s => "--directory=" ++ s
  | .rw s => "--rw=" ++ s
  | .bs s => "--bs=" ++ s
  | .size s => "--size=" ++ s
  | .numjobs n => "--numjobs=" ++ toString n
  | .iodepth n => "--iodepth=" ++ toString n
  | .runtime n => "--runtime=" ++ toString n
  | .time_based => "--time_based"
  | .group_reporting => "--group_reporting"
  | .outputFormatJson => "--output-format=json"
  | .rwmixread p => "--rwmixread=" ++ toString p
  | .direct1 => "--direct=1"
  | .ramp_time n => "--ramp_time=" ++ toString n
  | .ioengineLibaio => "--ioengine=libaio"
  | .endFsync1 => "--end_fsync=1"

/-- The I/O parameters `_build_fio_command` reads from the io dict
(with the dict-get defaults already applied). -/
structure IOParams where
  pattern : String
  block_size : String
  read_percent : Int
  io_depth : Int
  num_jobs : Int
  useDirect : Bool
deriving Repr, DecidableEq

/-- The test parameters `_build_fio_command` reads from the test dict. -/
structure TestParams where
  duration : Int
  rampTime : Int
  file_size : String
deriving Repr, DecidableEq

/-- The `--rw` mode selection of `_build_fio_command`
(src/manager/core/workload_executor.py:633-639). -/
def fioRwMode (pattern : String) (read_pct : Int) : String :=
  if read_pct = 100 then
    if pattern = "random" then "randread" else "read"
  else if read_pct = 0 then
    if pattern = "random" then "randwrite" else "write"
  else
    if pattern = "random" then "randrw" else "rw"

/-- Embeds `WorkloadExecutor._build_fio_command`
(src/manager/core/workload_executor.py:613-669), returning the argument
list in emission order; the emitted shell command is the space-joined
rendering of this list. -/
def buildFioCommand (io : IOParams) (test : TestParams)
    (directory : String) (client_id : String) : List FioArg :=
  let rw := fioRwMode io.pattern io.read_percent
  let base : List FioArg :=
    [ .fio,
      .name ("scale_test_" ++ client_id),
      .directory directory,
      .rw rw,
      .bs io.block_size,
      .size test.file_size,
      .numjobs io.num_jobs,
      .iodepth io.io_depth,
      .runtime test.duration,
      .time_based,
      .group_reporting,
      .outputFormatJson ]
  let withMix :=
    if rw = "randrw" ∨ rw = "rw" then base ++ [.rwmixread io.read_percent]
    else base
  let withDirect :=
    if io.useDirect then withMix ++ [.direct1] else withMix
  let withRamp :=
    if test.rampTime > 0 then withDirect ++ [.ramp_time test.rampTime]
    else withDirect
  withRamp ++ [.ioengineLibaio, .endFsync1]

/-- The single shell command string emitted for FIO. -/
def buildFioCommandString (io : IOParams) (test : TestParams)
    (directory : String) (client_id : String) : String :=
  " ".intercalate ((buildFioCommand io test directory client_id).map FioArg.render)

/-- The property claimed of the emitted FIO command: `--rw` selection by
read percentage and pattern, `--rwmixread=<read_percent>` exactly in mixed
mode, and the five fixed flags always present. -/
def FioCommandClaim (io : IOParams) (test : TestParams)
    (directory client_id : String) : Prop :=
  let args := buildFioCommand io test directory client_id
  (io.read_percent = 100 →
     FioArg.rw (if io.pattern = "random" then "randread" else "read") ∈ args) ∧
  (io.read_percent = 0 →
     FioArg.rw (if io.pattern = "random" then "randwrite" else "write") ∈ args) ∧
  (0 < io.read_percent → io.read_percent < 100 →
     FioArg.rw (if io.pattern = "random" then "randrw" else "rw") ∈ args) ∧
  (FioArg.rwmixread io.read_percent ∈ args ↔
     (0 < io.read_percent ∧ io.read_percent < 100)) ∧
  FioArg.time_based ∈ args ∧
  FioArg.group_reporting ∈ args ∧
  FioArg.outputFormatJson ∈ args ∧
  FioArg.ioengineLibaio ∈ args ∧
  FioArg.endFsync1 ∈ args

end WorkloadExecutor

namespace MetricsApi

/-- Auxiliary for Python extended slicing `xs[::k]`: keep an element when the
countdown reaches 0, then restart the countdown at k-1. -/
def strideAux (k : Nat) : List α → Nat → List α
  | [], _ => []
  | x :: xs, 0 => x :: strideAux k xs (k - 1)
  | _ :: xs, n + 1 => strideAux k xs n

/-- Python `xs[::k]` for a positive step k: the elements at indices
0, k, 2k, .... -/
def stride (xs : List α) (k : Nat) : List α :=
  strideAux k xs 0

/-- One metric sample of the aggregate JSONL stream; `ts` is the sample
timestamp and `v` stands for the remaining payload of the JSON record. -/
structure Sample where
  ts : Int
  v : Int
deriving Repr, DecidableEq

/-- Embeds `DataStore.read_metrics` (src/manager/storage/data_store.py:544-572):
returns the stored stream in file (append) order, keeping a sample iff it is
not strictly before start_time and not strictly after end_time. -/
def read_metrics (samples : List Sample)
    (start_time end_time : Option Int) : List Sample :=
  samples.filter (fun s =>
    (match start_time with
     | some t => decide (t ≤ s.ts)
     | none => true) &&
    (match end_time with
     | some t => decide (s.ts ≤ t)
     | none => true))

/-- The limit step of the `get_metrics` route
(src/manager/api/routes/metrics.py:41-45):
`if len(metrics) > limit: step = len(metrics) // limit;
metrics = metrics[::step][:limit]`. -/
def applyLimit (metrics : List α) (limit : Nat) : List α :=
  if metrics.length > limit then
    (stride metrics (metrics.length / limit)).take limit
  else metrics

/-- Embeds `get_metrics` (src/manager/api/routes/metrics.py:16-53): the returned
metrics slice for a window and a limit. -/
def get_metrics (samples : List Sample)
    (start_time end_time : Option Int) (limit : Nat) : List Sample :=
  applyLimit (read_metrics samples start_time end_time) limit

/-- r is the length-capped stride-k subsample of l: it has at most `limit`
elements and its i-th element is the (i*k)-th element of l. -/
def isEvenSubsample (r l : List α) (k limit : Nat) : Prop :=
  r.length ≤ limit ∧ ∀ i : Nat, i < r.length → r[i]? = l[i * k]?

end MetricsApi

namespace PrecheckRunner

/-- Embeds `CheckSeverity` from src/manager/prechecks/cluster/ceph.py. -/
inductive CheckSeverity where
  | info
  | warning
  | critical
deriving Repr, DecidableEq

/-- A cluster `CheckResult` as consumed by the runner loop. -/
structure ClusterCheck where
  name : String
  passed : Bool
  severity : CheckSeverity
  message : String
deriving Repr, DecidableEq

/-- A custom-command `CommandResult` as consumed by the runner loop
(src/manager/prechecks/cluster/custom_commands.py). -/
structure CustomResult where
  command : String
  success : Bool
  blocking : Bool
  stderr : String
deriving Repr, DecidableEq

/-- Embeds `ClientStatus` from src/common/models/client.py. -/
inductive ClientStatus where
  | unknown
  | online
  | offline
  | busy
  | error
  | unreachable
deriving Repr, DecidableEq

/-- String value of a client status (the str-enum value). -/
def ClientStatus.value : ClientStatus → String
  | .unknown => "unknown"
  | .online => "online"
  | .offline => "offline"
  | .busy => "busy"
  | .error => "error"
  | .unreachable => "unreachable"

/-- A client together with the outcome its health check produced
(`ClientHealthResult` fields read by the runner). -/
structure ClientCheck where
  id : String
  hostname : String
  status : ClientStatus
  errors : List String
deriving Repr, DecidableEq

/-- The environment `run_all_prechecks` runs against: the runner flags and
the outcomes of the external probes it launches.  `clusterOutcome` is the
combined result of `get_cluster_state` + `run_all_checks` (an exception in
either lands in the same handler). -/
structure PrecheckInputs where
  check_cluster : Bool
  backendIsCeph : Bool
  clusterOutcome : Except String (String × List ClusterCheck)
  custom : List CustomResult
  check_clients : Bool
  clients : List ClientCheck
deriving Repr

/-- The fields of the produced `PrecheckReport` the claims are about. -/
structure Report where
  overall_status : String
  can_proceed : Bool
  cluster_health : Option String
  clients_total : Nat
  clients_online : Nat
  excluded_clients : List String
  warnings : List String
  blocking_issues : List String
  proceed_message : String
deriving Repr, DecidableEq

/-- Phase 1 collection loop (src/manager/prechecks/runner.py:68-76):
failed checks become blocking issues, passed warning-severity checks
become warnings. -/
def clusterIssues (checks : List ClusterCheck) : List String × List String :=
  (checks.filter (fun c => !c.passed) |>.map
     (fun c => "[Cluster] " ++ c.name ++ ": " ++ c.message),
   checks.filter (fun c => c.passed && decide (c.severity = .warning)) |>.map
     (fun c => "[Cluster] " ++ c.name ++ ": " ++ c.message))

/-- Phase 2 collection loop (src/manager/prechecks/runner.py:96-98):
a failed-and-blocking command becomes a blocking issue. -/
def customIssues (results : List CustomResult) : List String :=
  results.filter (fun r => !r.success && r.blocking) |>.map
    (fun r => "[Command] " ++ r.command ++ ": " ++ r.stderr)

/-- Phase 3 warning text for a non-online client
(src/manager/prechecks/runner.py:140-147). -/
def clientWarning (c : ClientCheck) : String :=
  if c.status = .unreachable then
    "[Client] " ++ c.hostname ++ ": unreachable - " ++ ", ".intercalate c.errors
  else
    "[Client] " ++ c.hostname ++ ": " ++ c.status.value

/-- Phase 1 (src/manager/prechecks/runner.py:53-76): the recorded cluster
health string and the blocking/warning lists the cluster phase collects; an
exception becomes a single connection-failed blocker. -/
def clusterPhase (pin : PrecheckInputs) :
    Option String × List String × List String :=
  if pin.check_cluster && pin.backendIsCeph then
    match pin.clusterOutcome with
    | .ok (health, checks) =>
        (some health, (clusterIssues checks).1, (clusterIssues checks).2)
    | .error e => (none, ["[Cluster] Connection failed: " ++ e], [])
  else (none, [], [])

/-- Phase 3 runs when client checks are enabled and there are clients. -/
def clientPhaseRuns (pin : PrecheckInputs) : Bool :=
  pin.check_clients && !pin.clients.isEmpty

/-- The non-online clients the client phase excludes, in check order. -/
def offlineClients (pin : PrecheckInputs) : List ClientCheck :=
  if clientPhaseRuns pin then
    pin.clients.filter (fun c => c.status ≠ .online)
  else []

/-- All blocking issues, in collection order (cluster phase, then custom
commands; the client phase only produces warnings). -/
def blockingIssuesOf (pin : PrecheckInputs) : List String :=
  (clusterPhase pin).2.1 ++ customIssues pin.custom

/-- All warnings, in collection order (cluster phase, then client phase). -/
def warningsOf (pin : PrecheckInputs) : List String :=
  (clusterPhase pin).2.2 ++ (offlineClients pin).map clientWarning

/-- Embeds `PrecheckRunner.run_all_prechecks` (src/manager/prechecks/runner.py:40-196)
as a function of the probe outcomes: collects blocking issues, warnings and
the exclusion list over the three phases, then computes the verdict
(lines 159-171). -/
def run_all_prechecks (pin : PrecheckInputs) : Report :=
  let blocking_issues := blockingIssuesOf pin
  let warnings := warningsOf pin
  { overall_status :=
      if !blocking_issues.isEmpty then "failed"
      else if !warnings.isEmpty then "passed_with_warnings"
      else "passed",
    can_proceed :=
      if !blocking_issues.isEmpty then false
      else if !warnings.isEmpty then true
      else true,
    cluster_health := (clusterPhase pin).1,
    clients_total := pin.clients.length,
    clients_online :=
      if clientPhaseRuns pin then
        (pin.clients.filter (fun c => c.status = .online)).length
      else 0,
    excluded_clients := (offlineClients pin).map (·.id),
    warnings := warnings,
    blocking_issues := blocking_issues,
    proceed_message :=
      if !blocking_issues.isEmpty then
        "Cannot proceed: " ++ toString blocking_issues.length ++
          " critical issue(s)"
      else if !warnings.isEmpty then
        "Can proceed with " ++ toString warnings.length ++ " warning(s)"
      else "All checks passed. Ready to proceed." }

end PrecheckRunner

namespace SSHClient

/-- Outcome of one `asyncio.create_subprocess_exec` + `communicate` attempt:
the process ran to completion, the wait timed out, the executable was not
found (FileNotFoundError, e.g. sshpass missing from the controller host), or
some other exception was raised.  Each error constructor carries the Python
exception text. -/
inductive SpawnOutcome where
  | completed (returncode : Int) (stdout stderr : String)
  | timedOut
  | fileNotFound (msg : String)
  | otherError (msg : String)
deriving Repr, DecidableEq

/-- The controller-host environment: what spawning a given argv does. -/
def SpawnEnv := List String → SpawnOutcome

/-- Embeds `SSHCommandResult` (src/manager/deployment/ssh_client.py:14-23). -/
structure SSHCommandResult where
  exit_code : Int
  stdout : String
  stderr : String
deriving Repr, DecidableEq

def SSHCommandResult.success (r : SSHCommandResult) : Bool :=
  r.exit_code = 0

/-- Credentials held by an `SSHClient` instance. -/
structure ClientCfg where
  hostname : String
  username : String
  keyPathExists : Bool
  private_key_path : Option String
  password : Option String
  port : Int
deriving Repr, DecidableEq

/-- Embeds `SSHClient._build_ssh_command` (src/manager/deployment/ssh_client.py:58-84):
fixed options, `-i` when the key file exists, and an sshpass prefix exactly
when a password is configured. -/
def buildSshCommand (cfg : ClientCfg) (command : String) : List String :=
  let ssh_opts :=
    [ "-o", "StrictHostKeyChecking=no",
      "-o", "UserKnownHostsFile=/dev/null",
      "-o", "LogLevel=ERROR",
      "-o", "ConnectTimeout=10",
      "-p", toString cfg.port ] ++
    (match cfg.private_key_path with
     | some p => if cfg.keyPathExists then ["-i", p] else []
     | none => [])
  match cfg.password with
  | some pw =>
      ["sshpass", "-p", pw, "ssh"] ++ ssh_opts ++
        [cfg.username ++ "@" ++ cfg.hostname, command]
  | none =>
      ["ssh"] ++ ssh_opts ++ [cfg.username ++ "@" ++ cfg.hostname, command]

/-- Result of `run_command` together with the argv lists actually spawned,
in order. -/
structure RunTrace where
  result : SSHCommandResult
  attempts : List (List String)
deriving Repr, DecidableEq

/-- Embeds `SSHClient.run_command` (src/manager/deployment/ssh_client.py:86-154).
On FileNotFoundError with a configured password and sshpass in the argv, the
command is retried with the first three argv entries (sshpass, -p, password)
stripped; otherwise the fixed sshpass-not-found error is returned.  A raised
RuntimeError from raise_on_error is caught by the generic handler and
surfaces as exit_code -1 with the message as stderr. -/
def run_command (env : SpawnEnv) (cfg : ClientCfg) (command : String)
    (timeout : Int) (raise_on_error : Bool) : RunTrace :=
  let ssh_cmd := buildSshCommand cfg command
  match env ssh_cmd with
  | .completed rc out err =>
      let result : SSHCommandResult :=
        { exit_code := rc, stdout := out, stderr := err }
      if raise_on_error && !result.success then
        { result :=
            { exit_code := -1, stdout := "",
              stderr := "Command failed: " ++
                (if err.isEmpty then out else err) },
          attempts := [ssh_cmd] }
      else
        { result := result, attempts := [ssh_cmd] }
  | .timedOut =>
      { result :=
          { exit_code := -1, stdout := "",
            stderr := "Command timed out after " ++ toString timeout ++ "s" },
        attempts := [ssh_cmd] }
  | .fileNotFound _ =>
      if cfg.password.isSome && ssh_cmd.contains "sshpass" then
        let retry_cmd := ssh_cmd.drop 3
        match env retry_cmd with
        | .completed rc out err =>
            { result := { exit_code := rc, stdout := out, stderr := err },
              attempts := [ssh_cmd, retry_cmd] }
        | .timedOut =>
            { result := { exit_code := -1, stdout := "", stderr := "" },
              attempts := [ssh_cmd, retry_cmd] }
        | .fileNotFound m =>
            { result := { exit_code := -1, stdout := "", stderr := m },
              attempts := [ssh_cmd, retry_cmd] }
        | .otherError m =>
            { result := { exit_code := -1, stdout := "", stderr := m },
              attempts := [ssh_cmd, retry_cmd] }
      else
        { result :=
            { exit_code := -1, stdout := "",
              stderr := "SSH command failed: sshpass not found for password auth" },
          attempts := [ssh_cmd] }
  | .otherError m =>
      { result := { exit_code := -1, stdout := "", stderr := m },
        attempts := [ssh_cmd] }

/-- The argv built by `WorkloadExecutor.run_ssh_command`
(src/manager/core/workload_executor.py:258-272): sshpass is prepended
exactly when a password is given and no key path. -/
def buildWorkloadSshCommand (host username command : String)
    (password key_path : Option String) (port : Int) : List String :=
  let ssh_opts :=
    [ "-o", "StrictHostKeyChecking=no",
      "-o", "UserKnownHostsFile=/dev/null",
      "-o", "ConnectTimeout=10",
      "-p", toString port ] ++
    (match key_path with
     | some p => ["-i", p, "-o", "BatchMode=yes"]
     | none => [])
  let base := ["ssh"] ++ ssh_opts ++ [username ++ "@" ++ host, command]
  match password, key_path with
  | some pw, none => ["sshpass", "-p", pw] ++ base
  | _, _ => base

/-- Embeds `WorkloadExecutor.run_ssh_command`
(src/manager/core/workload_executor.py:247-285): every exception other than
the timeout is caught by the generic handler and returned as
(-1, "", str(e)) — there is no retry. -/
def workloadRunSshCommand (env : SpawnEnv) (host username command : String)
    (password key_path : Option String) (port : Int) :
    (Int × String × String) × List (List String) :=
  let ssh_cmd := buildWorkloadSshCommand host username command password key_path port
  match env ssh_cmd with
  | .completed rc out err => ((rc, out, err), [ssh_cmd])
  | .timedOut => ((-1, "", "Command timed out"), [ssh_cmd])
  | .fileNotFound m => ((-1, "", m), [ssh_cmd])
  | .otherError m => ((-1, "", m), [ssh_cmd])

/-- The except-handler of the sshpass-stripped retry inside `run_command`
(src/manager/deployment/ssh_client.py:126-143): a completed process is
returned as-is, any exception becomes exit -1 with the exception text. -/
def retryResult : SpawnOutcome → SSHCommandResult
  | .completed rc out err => { exit_code := rc, stdout := out, stderr := err }
  | .timedOut => { exit_code := -1, stdout := "", stderr := "" }
  | .fileNotFound m => { exit_code := -1, stdout := "", stderr := m }
  | .otherError m => { exit_code := -1, stdout := "", stderr := m }

/-- The explicit error string of the no-retry branch
(src/manager/deployment/ssh_client.py:144-148) — the "auth-unsupported"
error the spec refers to. -/
def authUnsupportedError : String :=
  "SSH command failed: sshpass not found for password auth"

/-- A controller host on which sshpass is not installed: spawning any argv
headed by sshpass raises FileNotFoundError, while plain ssh succeeds with
key-based authentication. -/
def sshpassAbsentEnv : SpawnEnv := fun cmd =>
  if cmd.head? = some "sshpass" then
    .fileNotFound "No such file or directory: sshpass"
  else
    .completed 0 "key-auth-ok" ""

/-- A client configured for password-based authentication. -/
def passwordCfg : ClientCfg :=
  { hostname := "worker1", username := "root", keyPathExists := false,
    private_key_path := none, password := some "secret", port := 22 }

end SSHClient

namespace DataStore

/-- Terminal statuses per `update_execution_status`
(src/manager/storage/data_store.py:473-474). -/
def terminalStatuses : List String := ["completed", "failed", "cancelled"]

/-- A row of the executions table: column name to stored value. -/
def Row := String → Option String

/-- The keyword arguments of an `update_execution_status` call (a Python
dict: column name to value). -/
def Kwargs := String → Option String

/-- The implicit timestamping of `update_execution_status`
(src/manager/storage/data_store.py:470-475): started_at is defaulted for a
transition to running when the caller did not supply it, completed_at is set
for every transition to a terminal status. -/
def autoKwargs (status now : String) (kw : Kwargs) : Kwargs :=
  let kw1 : Kwargs :=
    if status = "running" && (kw "started_at").isNone then
      fun c => if c = "started_at" then some now else kw c
    else kw
  if terminalStatuses.contains status then
    fun c => if c = "completed_at" then some now else kw1 c
  else kw1

/-- Embeds `DataStore.update_execution_status`
(src/manager/storage/data_store.py:460-488) applied to a row: the generated
UPDATE sets the status column and each (auto-extended) keyword column, and
touches nothing else. -/
def update_execution_status (row : Row) (status now : String)
    (kw : Kwargs) : Row :=
  let fields := autoKwargs status now kw
  fun c =>
    if c = "status" then some status
    else match fields c with
      | some v => some v
      | none => row c

/-- A sample stored row: only the error_message column is populated. -/
def sampleRow : Row :=
  fun col => if col = "error_message" then some "boom" else none

/-- An update call that names no extra columns. -/
def emptyKwargs : Kwargs := fun _ => none

end DataStore

namespace ExecutionEngine

/-- The aggregate-relevant fields of a per-client metrics dict returned by
`run_fio` / `run_fill_cluster` (the execution phase reads iops.t, bw_mbps.t
and lat_us.avg, src/manager/core/execution_engine.py:366-373). -/
structure Metrics where
  iops_t : ℚ
  bw_t : ℚ
  lat_avg : ℚ
deriving Repr, DecidableEq

/-- One entry of the `asyncio.gather(..., return_exceptions=True)` result
list: a raised exception, or the (success, message, metrics) triple returned
by the task; an empty metrics dict is `none`. -/
inductive TaskResult where
  | exn (msg : String)
  | ok (success : Bool) (message : String) (metrics : Option Metrics)
deriving Repr, DecidableEq

/-- The remote commands the engine causes to be issued to a worker, by
phase: benchmark-tool install (ensure_fio), ceph-common install, filesystem
mount, the fio / fill benchmark run itself, and the cleanup-phase unmount
and file cleanup. -/
inductive RemoteCmd where
  | toolInstall (client : String)
  | cephCommonInstall (client : String)
  | mount (client : String)
  | fioRun (client : String)
  | fillRun (client : String)
  | unmount (client : String)
  | cleanup (client : String)
deriving Repr, DecidableEq

/-- Client-selection mode (src/manager/core/execution_engine.py:163-181);
`other` stands for an unrecognized mode string, which falls back to all. -/
inductive SelectionMode where
  | all
  | count (n : Nat)
  | specific (ids : List String)
  | other
deriving Repr

/-- A single-execution scenario: the engine inputs plus the outcomes of
every external interaction (precheck probes, per-client tool installs,
mounts, benchmark runs) and the timing of a stop request.  `stop = some i`
means `stop_execution` sets the stop flag in interval i, where interval 0 is
before the post-precheck flag check, interval 1 is between the two flag
checks, interval 2 is after the post-prepare flag check but before the
execution completes, and larger values are after completion (never). -/
structure Scenario where
  run_prechecks : Bool
  pin : PrecheckRunner.PrecheckInputs
  selection : SelectionMode
  tool : String
  fioOk : String → Bool
  storage_type : String
  hasMount : Bool
  fsTypeIsCephfs : Bool
  auto_unmount : Bool
  mountOk : String → Bool
  runResult : String → TaskResult
  stop : Option Nat

/-- The worker inventory the engine reads via `data_store.get_clients()` —
the same client list the precheck runner is given. -/
def inventory (s : Scenario) : List String :=
  s.pin.clients.map (·.id)

/-- Value of the stop flag when it is read at checkpoint k
(k = 0: src/manager/core/execution_engine.py:61, k = 1: line 68). -/
def stopFlagAt (stop : Option Nat) (k : Nat) : Bool :=
  match stop with
  | none => false
  | some i => i ≤ k

/-- What the prepare phase leaves behind: the participant list stored in
`_active_executions[execution_id]["clients"]`, the remote commands issued,
and the execution-log lines written. -/
structure PrepareOut where
  participants : List String
  cmds : List RemoteCmd
  logs : List String
deriving Repr

/-- The client set selected by the prepare phase
(src/manager/core/execution_engine.py:159-181): inventory minus the
precheck exclusions, narrowed by the selection mode. -/
def selectedClients (s : Scenario) (excluded : List String) : List String :=
  let available := (inventory s).filter (fun c => !excluded.contains c)
  match s.selection with
  | .all => available
  | .count n => available.take n
  | .specific ids => available.filter (fun c => ids.contains c)
  | .other => available

/-- The clients on which the FIO install failed
(src/manager/core/execution_engine.py:192-204); empty for non-fio tools. -/
def fioFailed (s : Scenario) (selected : List String) : List String :=
  if s.tool = "fio" then selected.filter (fun c => !s.fioOk c) else []

/-- The local `selected_clients` variable after the FIO filter
(src/manager/core/execution_engine.py:205-208): only rebound when at least
one install failed. -/
def selectedAfterFio (s : Scenario) (selected : List String) : List String :=
  if s.tool = "fio" && !(fioFailed s selected).isEmpty then
    selected.filter (fun c => !(fioFailed s selected).contains c)
  else selected

/-- The clients whose mount failed during the file-workload mount fan-out
(src/manager/core/execution_engine.py:244-252). -/
def failedMounts (s : Scenario) (selected2 : List String) : List String :=
  selected2.filter (fun c => !s.mountOk c)

/-- The participant list stored in
`_active_executions[execution_id]["clients"]` at the end of the prepare
phase.  Mirrors the source faithfully, including the slip that the stored
list is written at line 186 BEFORE the FIO filter and is only overwritten
(from the FIO-filtered local) when at least one mount fails
(src/manager/core/execution_engine.py:256-261). -/
def prepareParticipants (s : Scenario) (excluded : List String) :
    List String :=
  let selected := selectedClients s excluded
  let selected2 := selectedAfterFio s selected
  if s.storage_type = "file" && s.hasMount then
    if (failedMounts s selected2).isEmpty then selected
    else selected2.filter (fun c => !(failedMounts s selected2).contains c)
  else selected

/-- The remote commands the prepare phase issues: FIO ensure-tool on the
selected clients, then (for file workloads) ceph-common install and mount
on the FIO-filtered clients. -/
def prepareCmds (s : Scenario) (excluded : List String) : List RemoteCmd :=
  let selected := selectedClients s excluded
  let selected2 := selectedAfterFio s selected
  (if s.tool = "fio" then selected.map RemoteCmd.toolInstall else []) ++
  (if s.storage_type = "file" && s.hasMount then
     (if s.fsTypeIsCephfs then selected2.map RemoteCmd.cephCommonInstall
      else []) ++ selected2.map RemoteCmd.mount
   else [])

/-- The execution-log lines the prepare phase writes. -/
def prepareLogs (s : Scenario) (excluded : List String) : List String :=
  let selected := selectedClients s excluded
  let selected2 := selectedAfterFio s selected
  (if s.tool = "fio" && !(fioFailed s selected).isEmpty then
     ["FIO install failed on: " ++ toString (fioFailed s selected)]
   else []) ++
  (if s.storage_type = "file" && s.hasMount &&
      !(failedMounts s selected2).isEmpty then
     ["Mount failed on clients: " ++ toString (failedMounts s selected2)]
   else [])

/-- Embeds `ExecutionEngine._run_prepare_phase`
(src/manager/core/execution_engine.py:144-269): raises when the selection
is empty, otherwise leaves the stored participant list, the issued remote
commands and the log lines described by the component functions above. -/
def preparePhase (s : Scenario) (excluded : List String) :
    Except String PrepareOut :=
  if (selectedClients s excluded).isEmpty then
    .error "No clients available for execution"
  else
    .ok { participants := prepareParticipants s excluded,
          cmds := prepareCmds s excluded,
          logs := prepareLogs s excluded }

/-- Accumulated effect of the result-processing loop of
`_run_execution_phase` (src/manager/core/execution_engine.py:355-387):
per-client metric appends in order, the aggregate accumulators, and the
execution-log lines. -/
structure ProcessOut where
  perClient : List (String × Metrics)
  total_iops : ℚ
  total_throughput : ℚ
  total_latency : ℚ
  latency_count : Nat
  logs : List String
deriving Repr, DecidableEq

/-- Effect of one loop iteration on the remaining accumulation. -/
def processStep (cid : String) (r : TaskResult) (rest : ProcessOut) :
    ProcessOut :=
  match r with
  | .exn m =>
      { rest with logs := ("FIO failed on " ++ cid ++ ": " ++ m) :: rest.logs }
  | .ok success message metrics =>
      match metrics with
      | some m =>
          if success then
            { perClient := (cid, m) :: rest.perClient,
              total_iops := m.iops_t + rest.total_iops,
              total_throughput := m.bw_t + rest.total_throughput,
              total_latency :=
                if m.lat_avg > 0 then m.lat_avg + rest.total_latency
                else rest.total_latency,
              latency_count :=
                if m.lat_avg > 0 then rest.latency_count + 1
                else rest.latency_count,
              logs := rest.logs }
          else
            { rest with
              logs := ("FIO issue on " ++ cid ++ ": " ++ message) :: rest.logs }
      | none =>
          { rest with
            logs := ("FIO issue on " ++ cid ++ ": " ++ message) :: rest.logs }

/-- The result-processing loop over the gathered (client, result) pairs. -/
def processResults : List (String × TaskResult) → ProcessOut
  | [] => { perClient := [], total_iops := 0, total_throughput := 0,
            total_latency := 0, latency_count := 0, logs := [] }
  | (cid, r) :: rest => processStep cid r (processResults rest)

/-- What the execution phase produces. -/
structure ExecOut where
  cmds : List RemoteCmd
  perClient : List (String × Metrics)
  logs : List String
  total_iops : ℚ
  total_throughput : ℚ
  avg_latency : ℚ
deriving Repr

/-- Embeds `ExecutionEngine._run_execution_phase`
(src/manager/core/execution_engine.py:302-408): raise when no clients
remain, fan out run_fill_cluster or run_fio, then process the gathered
results. -/
def execPhase (s : Scenario) (clients : List String) :
    Except String ExecOut :=
  if clients.isEmpty then .error "No clients available for execution"
  else
    let cmds :=
      clients.map (fun c =>
        if s.tool = "fill_cluster" then RemoteCmd.fillRun c
        else RemoteCmd.fioRun c)
    let p := processResults (clients.map (fun c => (c, s.runResult c)))
    .ok { cmds := cmds,
          perClient := p.perClient,
          logs := p.logs,
          total_iops := p.total_iops,
          total_throughput := p.total_throughput,
          avg_latency :=
            if p.latency_count > 0 then
              p.total_latency / (p.latency_count : ℚ)
            else 0 }

/-- Remote commands of `_run_cleanup_phase`
(src/manager/core/execution_engine.py:410-452): unmount fan-out when a file
workload mounted with auto_unmount, then cleanup fan-out on all clients. -/
def cleanupCmds (s : Scenario) (clients : List String) : List RemoteCmd :=
  (if s.storage_type = "file" && s.hasMount && s.auto_unmount then
     clients.map RemoteCmd.unmount
   else []) ++ clients.map RemoteCmd.cleanup

/-- Observable outcome of `run_execution`: the final persisted status, the
full trace of status updates, the remote commands issued, the participant
list the run phase fanned out to, the per-client metrics persisted, and the
execution-log lines. -/
structure RunOutcome where
  finalStatus : String
  statusTrace : List String
  commands : List RemoteCmd
  participants : List String
  perClient : List (String × Metrics)
  logs : List String
deriving Repr

/-- Continuation of `run_execution` after the precheck phase (prepare,
post-prepare stop check, execute, cleanup, complete; any phase exception is
caught and persists status failed,
src/manager/core/execution_engine.py:65-93). -/
def afterPrechecks (s : Scenario) (excluded : List String)
    (t0 : List String) : RunOutcome :=
  match preparePhase s excluded with
  | .error e =>
      { finalStatus := "failed",
        statusTrace := t0 ++ ["preparing", "failed"],
        commands := [], participants := [], perClient := [],
        logs := ["Execution failed: " ++ e] }
  | .ok prep =>
      let t1 := t0 ++ ["preparing", "preparing"]
      if stopFlagAt s.stop 1 then
        { finalStatus := "cancelled",
          statusTrace := t1 ++ ["cancelled"],
          commands := prep.cmds, participants := prep.participants,
          perClient := [], logs := prep.logs }
      else
        match execPhase s prep.participants with
        | .error e =>
            { finalStatus := "failed",
              statusTrace := t1 ++ ["running", "failed"],
              commands := prep.cmds, participants := prep.participants,
              perClient := [],
              logs := prep.logs ++ ["Execution failed: " ++ e] }
        | .ok ex =>
            { finalStatus := "completed",
              statusTrace := t1 ++ ["running", "running", "completed"],
              commands := prep.cmds ++ ex.cmds ++ cleanupCmds s prep.participants,
              participants := prep.participants,
              perClient := ex.perClient,
              logs := prep.logs ++ ex.logs }

/-- Embeds `ExecutionEngine.run_execution` (src/manager/core/execution_engine.py:
34-95): optional precheck phase (a failed verdict raises and is persisted as
status failed before any further phase runs), stop-flag checkpoint, prepare
phase, stop-flag checkpoint, execution phase, cleanup phase, completed. -/
def run_execution (s : Scenario) : RunOutcome :=
  if s.run_prechecks then
    let report := PrecheckRunner.run_all_prechecks s.pin
    let t0 := ["prechecks"]
    if !report.can_proceed then
      { finalStatus := "failed",
        statusTrace := t0 ++ ["failed"],
        commands := [], participants := [], perClient := [],
        logs := ["Execution failed: Prechecks failed: " ++
                   toString report.blocking_issues] }
    else if stopFlagAt s.stop 0 then
      { finalStatus := "cancelled",
        statusTrace := t0 ++ ["cancelled"],
        commands := [], participants := [], perClient := [], logs := [] }
    else
      afterPrechecks s report.excluded_clients t0
  else
    afterPrechecks s [] []

/-- A remote command is a benchmark command when it installs the tool,
mounts the filesystem, or runs the benchmark (the commands named by the
precheck-gating property). -/
def RemoteCmd.isBenchmarkCmd : RemoteCmd → Bool
  | .toolInstall _ => true
  | .cephCommonInstall _ => true
  | .mount _ => true
  | .fioRun _ => true
  | .fillRun _ => true
  | .unmount _ => false
  | .cleanup _ => false

/-- A remote command that actually runs the benchmark workload. -/
def RemoteCmd.isRunCmd : RemoteCmd → Bool
  | .fioRun _ => true
  | .fillRun _ => true
  | _ => false

/-- The stop request lands before the execution completes (intervals 0-2 of
the `Scenario.stop` timing). -/
def stopBeforeCompletion (s : Scenario) : Bool :=
  match s.stop with
  | none => false
  | some i => i ≤ 2

/-- Modelled from the spec (survivor arithmetic, §8 property 4): the
participant set at run-start equals the selection-policy filter applied to
(inventory minus precheck-exclusions), minus the workers whose tool install
failed, minus (for file workloads) the workers whose mount failed. -/
def specSurvivors (s : Scenario) (excluded : List String) : List String :=
  let available := (inventory s).filter (fun c => !excluded.contains c)
  let selected :=
    match s.selection with
    | .all => available
    | .count n => available.take n
    | .specific ids => available.filter (fun c => ids.contains c)
    | .other => available
  let afterTool :=
    if s.tool = "fio" then selected.filter s.fioOk else selected
  if s.storage_type = "file" && s.hasMount then afterTool.filter s.mountOk
  else afterTool

/-- The per-client metric record one gather entry contributes to the
persisted stream (`append_client_metrics` is called exactly for a
successful result with a non-empty metrics dict). -/
def clientContribution : String × TaskResult → Option (String × Metrics)
  | (cid, .ok success _ (some m)) => if success then some (cid, m) else none
  | _ => none

/-- The execution-log line one gather entry contributes. -/
def logContribution : String × TaskResult → Option String
  | (cid, .exn m) => some ("FIO failed on " ++ cid ++ ": " ++ m)
  | (cid, .ok success message metrics) =>
      match metrics with
      | some _ =>
          if success then none
          else some ("FIO issue on " ++ cid ++ ": " ++ message)
      | none => some ("FIO issue on " ++ cid ++ ": " ++ message)

/-- A representative non-empty metrics dict. -/
def someMetrics : Metrics := { iops_t := 100, bw_t := 10, lat_avg := 5 }

/-- Precheck probe outcomes for a healthy single-worker fleet. -/
def healthyPin : PrecheckRunner.PrecheckInputs :=
  { check_cluster := false, backendIsCeph := true,
    clusterOutcome := .ok ("HEALTH_OK", []),
    custom := [], check_clients := false,
    clients := [{ id := "c1", hostname := "host1",
                  status := .online, errors := [] }] }

/-- Scenario for the precheck-gating claim: the cluster health check fails
critically, producing one blocking issue; everything else is healthy. -/
def scenarioPrecheckBlocked : Scenario :=
  { run_prechecks := true,
    pin := { check_cluster := true, backendIsCeph := true,
             clusterOutcome := .ok ("HEALTH_ERR",
               [{ name := "cluster_health", passed := false,
                  severity := .critical, message := "HEALTH_ERR" }]),
             custom := [], check_clients := false,
             clients := [{ id := "c1", hostname := "host1",
                           status := .online, errors := [] }] },
    selection := .all, tool := "fio", fioOk := fun _ => true,
    storage_type := "block", hasMount := false, fsTypeIsCephfs := false,
    auto_unmount := true, mountOk := fun _ => true,
    runResult := fun _ => .ok true "FIO completed" (some someMetrics),
    stop := none }

/-- Scenario for the stop-semantics claim: a healthy single-worker run on
which the stop request lands during the run phase (interval 2), after the
post-prepare flag check. -/
def scenarioStopDuringRun : Scenario :=
  { run_prechecks := false, pin := healthyPin,
    selection := .all, tool := "fio", fioOk := fun _ => true,
    storage_type := "block", hasMount := false, fsTypeIsCephfs := false,
    auto_unmount := true, mountOk := fun _ => true,
    runResult := fun _ => .ok true "FIO completed" (some someMetrics),
    stop := some 2 }

/-- Same run, but the stop request lands in interval 1, so the post-prepare
flag check observes it. -/
def scenarioStopObserved : Scenario :=
  { scenarioStopDuringRun with stop := some 1 }

/-- Scenario for the survivor-arithmetic claim: two workers, the FIO
install fails on c2, block storage (no mount phase). -/
def scenarioFioFailed : Scenario :=
  { run_prechecks := false,
    pin := { check_cluster := false, backendIsCeph := true,
             clusterOutcome := .ok ("HEALTH_OK", []),
             custom := [], check_clients := false,
             clients := [{ id := "c1", hostname := "host1",
                           status := .online, errors := [] },
                         { id := "c2", hostname := "host2",
                           status := .online, errors := [] }] },
    selection := .all, tool := "fio",
    fioOk := fun c => !(c == "c2"),
    storage_type := "block", hasMount := false, fsTypeIsCephfs := false,
    auto_unmount := true, mountOk := fun _ => true,
    runResult := fun _ => .ok true "FIO completed" (some someMetrics),
    stop := none }

end ExecutionEngine

/-!
## Theorems

Claim-by-claim verification.  Helper lemmas are shared; each claim has
exactly one main theorem (plus witness / counterexample theorems where
required).
-/

/-- C9: every successfully validated workload I/O configuration satisfies
read_percent + write_percent = 100: for any input pair of percentages in
[0..100], the constructed IOConfig upholds the invariant. -/
theorem C9_ioconfig_rw_invariant (r w : Int) (cfg : Workload.IOConfigPercents)
    (h : Workload.mkIOConfig r w = some cfg) :
    cfg.read_percent + cfg.write_percent = 100 := by
  unfold Workload.mkIOConfig at h
  by_cases h1 : Workload.percentInRange r
  · rw [if_pos h1] at h
    by_cases h2 : Workload.percentInRange w
    · rw [if_pos h2] at h
      cases h
      simp only [Workload.validate_rw_percent]
      split
      · omega
      · omega
    · rw [if_neg h2] at h
      exact absurd h (by simp)
  · rw [if_neg h1] at h
    exact absurd h (by simp)

/-- Witness for C9 at the concrete input (70, 50): the pair is accepted and
the constructed config carries write_percent auto-adjusted to 30. -/
theorem C9_ioconfig_rw_invariant_witness :
    Workload.mkIOConfig 70 50 =
      some { read_percent := 70, write_percent := 30 } ∧
    (70 : Int) + 30 = 100 :=
  ⟨by decide,
   C9_ioconfig_rw_invariant 70 50
     { read_percent := 70, write_percent := 30 } (by decide)⟩

/-- C5: the precheck report's overall verdict is failed iff at least one
blocking issue was collected, else passed_with_warnings iff at least one
warning was collected, else passed; and can_proceed holds exactly when the
verdict is not failed. -/
theorem C5_precheck_verdict (pin : PrecheckRunner.PrecheckInputs) :
    ((PrecheckRunner.run_all_prechecks pin).overall_status = "failed" ↔
       (PrecheckRunner.run_all_prechecks pin).blocking_issues ≠ []) ∧
    ((PrecheckRunner.run_all_prechecks pin).overall_status =
        "passed_with_warnings" ↔
       ((PrecheckRunner.run_all_prechecks pin).blocking_issues = [] ∧
        (PrecheckRunner.run_all_prechecks pin).warnings ≠ [])) ∧
    ((PrecheckRunner.run_all_prechecks pin).overall_status = "passed" ↔
       ((PrecheckRunner.run_all_prechecks pin).blocking_issues = [] ∧
        (PrecheckRunner.run_all_prechecks pin).warnings = [])) ∧
    ((PrecheckRunner.run_all_prechecks pin).can_proceed = true ↔
       (PrecheckRunner.run_all_prechecks pin).overall_status ≠ "failed") := by
  unfold PrecheckRunner.run_all_prechecks
  by_cases hb : (PrecheckRunner.blockingIssuesOf pin).isEmpty <;>
  by_cases hw : (PrecheckRunner.warningsOf pin).isEmpty <;>
  simp_all [List.isEmpty_iff]

/-- C1: for every execution started with run_prechecks=true, if the
precheck report has can_proceed=false, the execution record transitions to
status failed and no remote command at all — in particular no tool install,
mount or fio run — is issued for the execution. -/
theorem C1_precheck_gating (s : ExecutionEngine.Scenario)
    (h1 : s.run_prechecks = true)
    (h2 : (PrecheckRunner.run_all_prechecks s.pin).can_proceed = false) :
    (ExecutionEngine.run_execution s).finalStatus = "failed" ∧
    (ExecutionEngine.run_execution s).commands = [] := by
  simp [ExecutionEngine.run_execution, h1, h2]

/-- Witness for C1: a scenario whose cluster health check fails critically;
the precheck verdict blocks, the execution fails, no command is issued. -/
theorem C1_precheck_gating_witness :
    ExecutionEngine.scenarioPrecheckBlocked.run_prechecks = true ∧
    (PrecheckRunner.run_all_prechecks
        ExecutionEngine.scenarioPrecheckBlocked.pin).can_proceed = false ∧
    ((ExecutionEngine.run_execution
        ExecutionEngine.scenarioPrecheckBlocked).finalStatus = "failed" ∧
     (ExecutionEngine.run_execution
        ExecutionEngine.scenarioPrecheckBlocked).commands = []) :=
  ⟨rfl, by decide,
   C1_precheck_gating ExecutionEngine.scenarioPrecheckBlocked rfl (by decide)⟩

/-- C10: updating an execution record to a terminal status (completed,
failed, cancelled) sets completed_at; updating to running sets started_at
when the call does not supply one; any column not named in the update (and
not auto-timestamped) is left unchanged. -/
theorem C10_update_execution_status (row : DataStore.Row)
    (status now : String) (kw : DataStore.Kwargs) (c : String)
    (hc1 : c ≠ "status") (hc2 : c ≠ "started_at") (hc3 : c ≠ "completed_at")
    (hc4 : kw c = none) :
    DataStore.update_execution_status row status now kw "completed_at" =
      (if DataStore.terminalStatuses.contains status then some now
       else match kw "completed_at" with
            | some v => some v
            | none => row "completed_at") ∧
    DataStore.update_execution_status row status now kw "started_at" =
      (if status = "running" && (kw "started_at").isNone then some now
       else match kw "started_at" with
            | some v => some v
            | none => row "started_at") ∧
    DataStore.update_execution_status row status now kw c = row c := by
  unfold DataStore.update_execution_status DataStore.autoKwargs
  refine ⟨?_, ?_, ?_⟩
  · by_cases ht : status ∈ DataStore.terminalStatuses <;>
      by_cases hr : (decide (status = "running") && (kw "started_at").isNone) = true <;>
      rcases hks : kw "completed_at" with _ | v <;>
      simp [ht, hr, hks, List.elem_iff]
  · by_cases ht : status ∈ DataStore.terminalStatuses <;>
      by_cases hr : (decide (status = "running") && (kw "started_at").isNone) = true <;>
      rcases hks : kw "started_at" with _ | v <;>
      simp_all [List.elem_iff]
  · by_cases ht : status ∈ DataStore.terminalStatuses <;>
      by_cases hr : (decide (status = "running") && (kw "started_at").isNone) = true <;>
      simp [ht, hr, hc1, hc2, hc3, hc4, List.elem_iff]

/-- Witness for C10: updating a sample row to completed with no extra
columns sets completed_at to the supplied timestamp and leaves the
error_message column untouched. -/
theorem C10_update_execution_status_witness :
    DataStore.update_execution_status DataStore.sampleRow "completed" "t1"
        DataStore.emptyKwargs "completed_at" =
      (if DataStore.terminalStatuses.contains "completed" then some "t1"
       else match DataStore.emptyKwargs "completed_at" with
            | some v => some v
            | none => DataStore.sampleRow "completed_at") ∧
    DataStore.update_execution_status DataStore.sampleRow "completed" "t1"
        DataStore.emptyKwargs "started_at" =
      (if "completed" = "running" && (DataStore.emptyKwargs "started_at").isNone
       then some "t1"
       else match DataStore.emptyKwargs "started_at" with
            | some v => some v
            | none => DataStore.sampleRow "started_at") ∧
    DataStore.update_execution_status DataStore.sampleRow "completed" "t1"
        DataStore.emptyKwargs "error_message" =
      DataStore.sampleRow "error_message" :=
  C10_update_execution_status DataStore.sampleRow "completed" "t1"
    DataStore.emptyKwargs "error_message"
    (by decide) (by decide) (by decide) rfl

theorem strideAux_shift (k : Nat) (l : List α) :
    ∀ n : Nat, MetricsApi.strideAux k l n = MetricsApi.strideAux k (l.drop n) 0 := by
  induction l with
  | nil => intro n; simp [MetricsApi.strideAux]
  | cons x xs ih =>
      intro n
      cases n with
      | zero => simp
      | succ m => simpa [MetricsApi.strideAux] using ih m

theorem stride_cons (k : Nat) (x : α) (xs : List α) :
    MetricsApi.stride (x :: xs) k =
      x :: MetricsApi.stride (xs.drop (k - 1)) k := by
  simp [MetricsApi.stride, MetricsApi.strideAux, strideAux_shift]

theorem strideAux_sublist (k : Nat) (l : List α) :
    ∀ n : Nat, (MetricsApi.strideAux k l n).Sublist l := by
  induction l with
  | nil => intro n; simp [MetricsApi.strideAux]
  | cons x xs ih =>
      intro n
      cases n with
      | zero => exact List.Sublist.cons₂ x (ih (k - 1))
      | succ m => exact (ih m).cons x

theorem stride_sublist (k : Nat) (l : List α) :
    (MetricsApi.stride l k).Sublist l :=
  strideAux_sublist k l 0

theorem stride_getElem? (k : Nat) (hk : 1 ≤ k) :
    ∀ (i : Nat) (l : List α), (MetricsApi.stride l k)[i]? = l[i * k]? := by
  intro i
  induction i with
  | zero =>
      intro l
      cases l with
      | nil => simp [MetricsApi.stride, MetricsApi.strideAux]
      | cons x xs => simp [stride_cons]
  | succ i ih =>
      intro l
      cases l with
      | nil => simp [MetricsApi.stride, MetricsApi.strideAux]
      | cons x xs =>
          rw [stride_cons, List.getElem?_cons_succ, ih (xs.drop (k - 1)),
            List.getElem?_drop]
          have hidx : (i + 1) * k = (k - 1 + i * k) + 1 := by
            cases k with
            | zero => omega
            | succ m => ring_nf; omega
          rw [hidx, List.getElem?_cons_succ]

/-- C7 counterexample: for the 5-sample stream with timestamps 0..4 and
limit 2, the route returns the samples at indices 0 and 2 — the first
sample of the window is preserved but the last one (ts=4) is dropped, so
the claim that both endpoints are preserved is false as stated. -/
theorem C7_counterexample :
    MetricsApi.get_metrics
        [⟨0, 10⟩, ⟨1, 11⟩, ⟨2, 12⟩, ⟨3, 13⟩, ⟨4, 14⟩] none none 2 =
      [⟨0, 10⟩, ⟨2, 12⟩] ∧
    (MetricsApi.read_metrics
        [⟨0, 10⟩, ⟨1, 11⟩, ⟨2, 12⟩, ⟨3, 13⟩, ⟨4, 14⟩] none none).getLast? =
      some ⟨4, 14⟩ ∧
    (⟨4, 14⟩ : MetricsApi.Sample) ∉
      MetricsApi.get_metrics
        [⟨0, 10⟩, ⟨1, 11⟩, ⟨2, 12⟩, ⟨3, 13⟩, ⟨4, 14⟩] none none 2 := by
  decide

/-- C7 (amended): for every metrics read over a time window whose sample
count exceeds a positive limit, the returned slice is an evenly-strided
(stride = count / limit) subsample of the chronologically ordered window
stream, has length at most limit, and preserves the first sample of the
window; the last sample is not necessarily preserved. -/
theorem C7_metrics_subsample (samples : List MetricsApi.Sample)
    (st et : Option Int) (limit : Nat) (h1 : 0 < limit)
    (h2 : limit < (MetricsApi.read_metrics samples st et).length) :
    (MetricsApi.get_metrics samples st et limit).head? =
      (MetricsApi.read_metrics samples st et).head? ∧
    (MetricsApi.get_metrics samples st et limit).Sublist
      (MetricsApi.read_metrics samples st et) ∧
    MetricsApi.isEvenSubsample (MetricsApi.get_metrics samples st et limit)
      (MetricsApi.read_metrics samples st et)
      ((MetricsApi.read_metrics samples st et).length / limit) limit := by
  have hgl : MetricsApi.get_metrics samples st et limit =
      (MetricsApi.stride (MetricsApi.read_metrics samples st et)
        ((MetricsApi.read_metrics samples st et).length / limit)).take limit := by
    unfold MetricsApi.get_metrics MetricsApi.applyLimit
    rw [if_pos h2]
  have hk : 1 ≤ (MetricsApi.read_metrics samples st et).length / limit :=
    (Nat.one_le_div_iff h1).mpr (Nat.le_of_lt h2)
  refine ⟨?_, ?_, ?_, ?_⟩
  · rw [hgl, List.head?_eq_getElem?, List.head?_eq_getElem?,
      List.getElem?_take_of_lt h1, stride_getElem? _ hk 0]
    simp
  · rw [hgl]
    exact (List.take_sublist _ _).trans (stride_sublist _ _)
  · rw [hgl]
    simp
  · intro i hi
    rw [hgl] at hi ⊢
    have hilim : i < limit := by
      have := List.length_take limit
        (MetricsApi.stride (MetricsApi.read_metrics samples st et)
          ((MetricsApi.read_metrics samples st et).length / limit))
      omega
    rw [List.getElem?_take_of_lt hilim, stride_getElem? _ hk i]

/-- Witness for C7 (amended) at the 5-sample stream with limit 2. -/
theorem C7_metrics_subsample_witness :
    0 < 2 ∧
    2 < (MetricsApi.read_metrics
          [⟨0, 10⟩, ⟨1, 11⟩, ⟨2, 12⟩, ⟨3, 13⟩, ⟨4, 14⟩] none none).length ∧
    ((MetricsApi.get_metrics
        [⟨0, 10⟩, ⟨1, 11⟩, ⟨2, 12⟩, ⟨3, 13⟩, ⟨4, 14⟩] none none 2).head? =
      (MetricsApi.read_metrics
        [⟨0, 10⟩, ⟨1, 11⟩, ⟨2, 12⟩, ⟨3, 13⟩, ⟨4, 14⟩] none none).head? ∧
    (MetricsApi.get_metrics
        [⟨0, 10⟩, ⟨1, 11⟩, ⟨2, 12⟩, ⟨3, 13⟩, ⟨4, 14⟩] none none 2).Sublist
      (MetricsApi.read_metrics
        [⟨0, 10⟩, ⟨1, 11⟩, ⟨2, 12⟩, ⟨3, 13⟩, ⟨4, 14⟩] none none) ∧
    MetricsApi.isEvenSubsample
      (MetricsApi.get_metrics
        [⟨0, 10⟩, ⟨1, 11⟩, ⟨2, 12⟩, ⟨3, 13⟩, ⟨4, 14⟩] none none 2)
      (MetricsApi.read_metrics
        [⟨0, 10⟩, ⟨1, 11⟩, ⟨2, 12⟩, ⟨3, 13⟩, ⟨4, 14⟩] none none)
      ((MetricsApi.read_metrics
        [⟨0, 10⟩, ⟨1, 11⟩, ⟨2, 12⟩, ⟨3, 13⟩, ⟨4, 14⟩] none none).length / 2)
      2) :=
  ⟨by decide, by decide,
   C7_metrics_subsample
     [⟨0, 10⟩, ⟨1, 11⟩, ⟨2, 12⟩, ⟨3, 13⟩, ⟨4, 14⟩] none none 2
     (by decide) (by decide)⟩

/-- C2 counterexample: with a password-configured client on a controller
host without sshpass, `run_command` spawns a second, sshpass-stripped ssh
invocation (silent key-auth retry) and returns its successful result — not
the explicit auth-unsupported error the claim requires. -/
theorem C2_counterexample :
    (SSHClient.run_command SSHClient.sshpassAbsentEnv SSHClient.passwordCfg
        "echo hi" 60 false).result.exit_code = 0 ∧
    (SSHClient.run_command SSHClient.sshpassAbsentEnv SSHClient.passwordCfg
        "echo hi" 60 false).result.stderr ≠ SSHClient.authUnsupportedError ∧
    (SSHClient.run_command SSHClient.sshpassAbsentEnv SSHClient.passwordCfg
        "echo hi" 60 false).attempts.length = 2 ∧
    (SSHClient.run_command SSHClient.sshpassAbsentEnv SSHClient.passwordCfg
        "echo hi" 60 false).attempts.getLast? =
      some ((SSHClient.buildSshCommand SSHClient.passwordCfg "echo hi").drop 3) ∧
    ((SSHClient.buildSshCommand SSHClient.passwordCfg "echo hi").drop 3).head? =
      some "ssh" := by
  decide

/-- C2 (amended): when the password helper tool (sshpass) is absent,
`SSHClient.run_command` does not return the explicit auth-unsupported
error; it silently retries the command with the sshpass prefix stripped
(falling back to whatever authentication plain ssh provides) and returns
that retry's outcome.  `WorkloadExecutor.run_ssh_command` performs no retry
and returns exit -1 with the raw FileNotFoundError text rather than the
explicit auth-unsupported error. -/
theorem C2_sshpass_fallback (env : SSHClient.SpawnEnv)
    (cfg : SSHClient.ClientCfg) (command : String) (timeout : Int)
    (roe : Bool) (msg : String)
    (host username wcommand pw2 : String) (port : Int) (msg2 : String)
    (hpw : cfg.password.isSome = true)
    (hnf : env (SSHClient.buildSshCommand cfg command) =
      .fileNotFound msg)
    (hnf2 : env (SSHClient.buildWorkloadSshCommand host username wcommand
        (some pw2) none port) = .fileNotFound msg2) :
    (SSHClient.run_command env cfg command timeout roe).attempts =
      [SSHClient.buildSshCommand cfg command,
       (SSHClient.buildSshCommand cfg command).drop 3] ∧
    (SSHClient.run_command env cfg command timeout roe).result =
      SSHClient.retryResult
        (env ((SSHClient.buildSshCommand cfg command).drop 3)) ∧
    SSHClient.workloadRunSshCommand env host username wcommand
        (some pw2) none port =
      ((-1, "", msg2),
       [SSHClient.buildWorkloadSshCommand host username wcommand
          (some pw2) none port]) := by
  obtain ⟨pw, hp⟩ := Option.isSome_iff_exists.mp hpw
  have hcontains :
      (SSHClient.buildSshCommand cfg command).contains "sshpass" = true := by
    simp [SSHClient.buildSshCommand, hp]
  refine ⟨?_, ?_, ?_⟩
  · simp only [SSHClient.run_command]
    rw [hnf]
    simp only [hpw, hcontains, Bool.and_self, if_true]
    cases henv : env ((SSHClient.buildSshCommand cfg command).drop 3) <;> simp
  · simp only [SSHClient.run_command]
    rw [hnf]
    simp only [hpw, hcontains, Bool.and_self, if_true]
    cases henv : env ((SSHClient.buildSshCommand cfg command).drop 3) <;>
      simp [SSHClient.retryResult]
  · simp only [SSHClient.workloadRunSshCommand]
    rw [hnf2]

/-- Witness for C2 (amended) on a concrete sshpass-less controller host. -/
theorem C2_sshpass_fallback_witness :
    SSHClient.passwordCfg.password.isSome = true ∧
    SSHClient.sshpassAbsentEnv
        (SSHClient.buildSshCommand SSHClient.passwordCfg "echo hi") =
      .fileNotFound "No such file or directory: sshpass" ∧
    SSHClient.sshpassAbsentEnv
        (SSHClient.buildWorkloadSshCommand "worker1" "root" "ls"
          (some "secret") none 22) =
      .fileNotFound "No such file or directory: sshpass" ∧
    ((SSHClient.run_command SSHClient.sshpassAbsentEnv SSHClient.passwordCfg
        "echo hi" 60 false).attempts =
      [SSHClient.buildSshCommand SSHClient.passwordCfg "echo hi",
       (SSHClient.buildSshCommand SSHClient.passwordCfg "echo hi").drop 3] ∧
    (SSHClient.run_command SSHClient.sshpassAbsentEnv SSHClient.passwordCfg
        "echo hi" 60 false).result =
      SSHClient.retryResult
        (SSHClient.sshpassAbsentEnv
          ((SSHClient.buildSshCommand SSHClient.passwordCfg "echo hi").drop 3)) ∧
    SSHClient.workloadRunSshCommand SSHClient.sshpassAbsentEnv "worker1"
        "root" "ls" (some "secret") none 22 =
      ((-1, "", "No such file or directory: sshpass"),
       [SSHClient.buildWorkloadSshCommand "worker1" "root" "ls"
          (some "secret") none 22])) :=
  ⟨by decide, by decide, by decide,
   C2_sshpass_fallback SSHClient.sshpassAbsentEnv SSHClient.passwordCfg
     "echo hi" 60 false "No such file or directory: sshpass"
     "worker1" "root" "ls" "secret" 22 "No such file or directory: sshpass"
     (by decide) (by decide) (by decide)⟩

theorem processResults_perClient
    (rs : List (String × ExecutionEngine.TaskResult)) :
    (ExecutionEngine.processResults rs).perClient =
      rs.filterMap ExecutionEngine.clientContribution := by
  induction rs with
  | nil => rfl
  | cons hd tl ih =>
      obtain ⟨cid, r⟩ := hd
      cases r with
      | exn m =>
          simp [ExecutionEngine.processResults, ExecutionEngine.processStep,
            ExecutionEngine.clientContribution, ih]
      | ok success message metrics =>
          cases metrics with
          | none =>
              simp [ExecutionEngine.processResults,
                ExecutionEngine.processStep,
                ExecutionEngine.clientContribution, ih]
          | some m =>
              by_cases hs : success <;>
                simp [ExecutionEngine.processResults,
                  ExecutionEngine.processStep,
                  ExecutionEngine.clientContribution, hs, ih]

theorem processResults_logs
    (rs : List (String × ExecutionEngine.TaskResult)) :
    (ExecutionEngine.processResults rs).logs =
      rs.filterMap ExecutionEngine.logContribution := by
  induction rs with
  | nil => rfl
  | cons hd tl ih =>
      obtain ⟨cid, r⟩ := hd
      cases r with
      | exn m =>
          simp [ExecutionEngine.processResults, ExecutionEngine.processStep,
            ExecutionEngine.logContribution, ih]
      | ok success message metrics =>
          cases metrics with
          | none =>
              simp [ExecutionEngine.processResults,
                ExecutionEngine.processStep,
                ExecutionEngine.logContribution, ih]
          | some m =>
              by_cases hs : success <;>
                simp [ExecutionEngine.processResults,
                  ExecutionEngine.processStep,
                  ExecutionEngine.logContribution, hs, ih]

/-- C6: an exception in one worker's run task never aborts the siblings.
Processing the gather result list with one entry replaced by a raised
exception (i) still contributes every other entry's persisted per-worker
metrics — the appended stream is exactly the concatenation of the
contributions before and after the failing worker, (ii) leaves the
persisted metrics of every worker other than the failing one identical to
the run in which that worker returns any result r instead of failing, and
(iii) records the exception text as a per-worker error line on the
execution log. -/
theorem C6_fanout_isolation (pre post : List (String × ExecutionEngine.TaskResult))
    (c m : String) (r : ExecutionEngine.TaskResult) :
    (ExecutionEngine.processResults
        (pre ++ (c, .exn m) :: post)).perClient =
      (ExecutionEngine.processResults pre).perClient ++
        (ExecutionEngine.processResults post).perClient ∧
    ((ExecutionEngine.processResults
        (pre ++ (c, .exn m) :: post)).perClient.filter
          (fun p => p.1 != c)) =
      ((ExecutionEngine.processResults
        (pre ++ (c, r) :: post)).perClient.filter
          (fun p => p.1 != c)) ∧
    ("FIO failed on " ++ c ++ ": " ++ m) ∈
      (ExecutionEngine.processResults
        (pre ++ (c, .exn m) :: post)).logs := by
  refine ⟨?_, ?_, ?_⟩
  · simp [processResults_perClient, List.filterMap_append,
      ExecutionEngine.clientContribution]
  · have hmid : ∀ x : ExecutionEngine.TaskResult,
        (ExecutionEngine.clientContribution (c, x)).elim []
            (fun p => if p.1 != c then [p] else []) = [] := by
      intro x
      cases x with
      | exn m2 => simp [ExecutionEngine.clientContribution]
      | ok success message metrics =>
          cases metrics with
          | none => simp [ExecutionEngine.clientContribution]
          | some mm =>
              by_cases hs : success <;>
                simp [ExecutionEngine.clientContribution, hs]
    simp only [processResults_perClient, List.filterMap_append,
      List.filterMap_cons, List.filter_append]
    cases hc1 : ExecutionEngine.clientContribution (c, .exn m) with
    | none =>
        cases hc2 : ExecutionEngine.clientContribution (c, r) with
        | none => rfl
        | some p =>
            have := hmid r
            rw [hc2] at this
            simp at this
            simp [List.filter_cons, this]
    | some p =>
        have := hmid (.exn m)
        rw [hc1] at this
        simp at this
        cases hc2 : ExecutionEngine.clientContribution (c, r) with
        | none => simp [List.filter_cons, this]
        | some q =>
            have h2 := hmid r
            rw [hc2] at h2
            simp at h2
            simp [List.filter_cons, this, h2]
  · simp [processResults_logs, List.filterMap_append,
      ExecutionEngine.logContribution]

/-- C3 counterexample: on a healthy single-worker run, a stop request that
lands during the run phase (interval 2 — before completion, but after the
post-prepare flag check) is never observed: the execution terminates with
status completed, not cancelled. -/
theorem C3_counterexample :
    ExecutionEngine.stopBeforeCompletion
        ExecutionEngine.scenarioStopDuringRun = true ∧
    (ExecutionEngine.run_execution
        ExecutionEngine.scenarioStopDuringRun).finalStatus = "completed" ∧
    (ExecutionEngine.run_execution
        ExecutionEngine.scenarioStopDuringRun).finalStatus ≠ "cancelled" := by
  refine ⟨rfl, rfl, by decide⟩

theorem filter_isRunCmd_map_eq_nil (l : List String)
    (g : String → ExecutionEngine.RemoteCmd)
    (hg : ∀ x, (g x).isRunCmd = false) :
    (l.map g).filter ExecutionEngine.RemoteCmd.isRunCmd = [] := by
  induction l with
  | nil => rfl
  | cons x xs ih => simp [List.filter_cons, hg x, ih]


theorem prepareCmds_no_run_cmds (s : ExecutionEngine.Scenario)
    (excluded : List String) :
    (ExecutionEngine.prepareCmds s excluded).filter
      ExecutionEngine.RemoteCmd.isRunCmd = [] := by
  unfold ExecutionEngine.prepareCmds
  have h1 := filter_isRunCmd_map_eq_nil
    (ExecutionEngine.selectedClients s excluded)
    ExecutionEngine.RemoteCmd.toolInstall (fun x => rfl)
  have h2 := filter_isRunCmd_map_eq_nil
    (ExecutionEngine.selectedAfterFio s
      (ExecutionEngine.selectedClients s excluded))
    ExecutionEngine.RemoteCmd.cephCommonInstall (fun x => rfl)
  have h3 := filter_isRunCmd_map_eq_nil
    (ExecutionEngine.selectedAfterFio s
      (ExecutionEngine.selectedClients s excluded))
    ExecutionEngine.RemoteCmd.mount (fun x => rfl)
  split_ifs <;> simp [List.filter_append, h1, h2, h3]

theorem preparePhase_no_run_cmds (s : ExecutionEngine.Scenario)
    (excluded : List String) (p : ExecutionEngine.PrepareOut)
    (h : ExecutionEngine.preparePhase s excluded = .ok p) :
    p.cmds.filter ExecutionEngine.RemoteCmd.isRunCmd = [] := by
  unfold ExecutionEngine.preparePhase at h
  split at h
  · exact absurd h (by simp)
  · injection h with h
    rw [← h]
    exact prepareCmds_no_run_cmds s excluded

/-- C3 (amended): a stop request is only observed at the two flag
checkpoints (after the precheck phase and after the prepare phase).  When
the flag is set by the time the post-prepare checkpoint reads it (and the
phases up to that point succeed), the execution short-circuits with
terminal status cancelled and no benchmark-run command is ever issued.  A
stop request that lands after that checkpoint — in particular during the
run phase — is never observed and does not prevent terminal status
completed (see the counterexample). -/
theorem C3_stop_checkpoints (s : ExecutionEngine.Scenario)
    (p : ExecutionEngine.PrepareOut)
    (hpc : s.run_prechecks = true →
      (PrecheckRunner.run_all_prechecks s.pin).can_proceed = true)
    (hprep : ExecutionEngine.preparePhase s
        (if s.run_prechecks then
          (PrecheckRunner.run_all_prechecks s.pin).excluded_clients
         else []) = .ok p)
    (hstop : ExecutionEngine.stopFlagAt s.stop 1 = true) :
    (ExecutionEngine.run_execution s).finalStatus = "cancelled" ∧
    (ExecutionEngine.run_execution s).commands.filter
      ExecutionEngine.RemoteCmd.isRunCmd = [] := by
  have hnorun := preparePhase_no_run_cmds s _ p hprep
  unfold ExecutionEngine.run_execution
  by_cases hrp : s.run_prechecks = true
  · rw [if_pos hrp] at hprep ⊢
    simp only [hpc hrp, Bool.not_true, Bool.false_eq_true, if_false]
    by_cases hflag0 : ExecutionEngine.stopFlagAt s.stop 0 = true
    · simp [hflag0]
    · simp only [hflag0, Bool.false_eq_true, if_false]
      unfold ExecutionEngine.afterPrechecks
      rw [hprep]
      simp [hstop, hnorun]
  · rw [if_neg hrp] at hprep
    rw [if_neg hrp]
    unfold ExecutionEngine.afterPrechecks
    rw [hprep]
    simp [hstop, hnorun]

/-- Witness for C3 (amended): the stop request lands in interval 1, the
post-prepare checkpoint observes it, and the run terminates cancelled with
no benchmark-run command issued. -/
theorem C3_stop_checkpoints_witness :
    (ExecutionEngine.scenarioStopObserved.run_prechecks = true →
      (PrecheckRunner.run_all_prechecks
        ExecutionEngine.scenarioStopObserved.pin).can_proceed = true) ∧
    ExecutionEngine.preparePhase ExecutionEngine.scenarioStopObserved
        (if ExecutionEngine.scenarioStopObserved.run_prechecks then
          (PrecheckRunner.run_all_prechecks
            ExecutionEngine.scenarioStopObserved.pin).excluded_clients
         else []) =
      .ok { participants := ["c1"],
            cmds := [ExecutionEngine.RemoteCmd.toolInstall "c1"],
            logs := [] } ∧
    ExecutionEngine.stopFlagAt ExecutionEngine.scenarioStopObserved.stop 1 =
      true ∧
    ((ExecutionEngine.run_execution
        ExecutionEngine.scenarioStopObserved).finalStatus = "cancelled" ∧
     (ExecutionEngine.run_execution
        ExecutionEngine.scenarioStopObserved).commands.filter
       ExecutionEngine.RemoteCmd.isRunCmd = []) :=
  ⟨by decide, rfl, by decide,
   C3_stop_checkpoints ExecutionEngine.scenarioStopObserved
     { participants := ["c1"],
       cmds := [ExecutionEngine.RemoteCmd.toolInstall "c1"],
       logs := [] }
     (by decide) rfl (by decide)⟩

/-- C4: code bug.  On the failing input (two workers, FIO install fails on
c2, block storage), the prepare phase's FIO-filtered list is dropped: the
run phase fans out to BOTH workers, c2 included, and a fio run command is
issued to c2 — while the survivor arithmetic required by the spec (and by
the source's own comment "Remove clients where FIO install failed") yields
only c1. -/
theorem C4_fio_failed_worker_not_dropped :
    ExecutionEngine.scenarioFioFailed.fioOk "c2" = false ∧
    ExecutionEngine.fioFailed ExecutionEngine.scenarioFioFailed
        (ExecutionEngine.selectedClients
          ExecutionEngine.scenarioFioFailed []) = ["c2"] ∧
    (ExecutionEngine.run_execution
        ExecutionEngine.scenarioFioFailed).participants = ["c1", "c2"] ∧
    ExecutionEngine.RemoteCmd.fioRun "c2" ∈
      (ExecutionEngine.run_execution
        ExecutionEngine.scenarioFioFailed).commands ∧
    ExecutionEngine.specSurvivors ExecutionEngine.scenarioFioFailed [] =
      ["c1"] := by
  refine ⟨rfl, rfl, rfl, by decide, rfl⟩

/-- C8: the emitted FIO command selects --rw as randread/read when
read_percent=100, randwrite/write when read_percent=0, and randrw/rw
otherwise (random variant iff pattern is random), appends
--rwmixread=<read_percent> exactly when the mode is mixed
(0 < read_percent < 100), and always includes --time_based,
--group_reporting, --output-format=json, --ioengine=libaio and
--end_fsync=1. -/
theorem C8_fio_command (io : WorkloadExecutor.IOParams)
    (test : WorkloadExecutor.TestParams) (directory client_id : String)
    (h0 : 0 ≤ io.read_percent) (h1 : io.read_percent ≤ 100) :
    WorkloadExecutor.FioCommandClaim io test directory client_id := by
  unfold WorkloadExecutor.FioCommandClaim WorkloadExecutor.buildFioCommand
    WorkloadExecutor.fioRwMode
  by_cases hr100 : io.read_percent = 100 <;>
  by_cases hr0 : io.read_percent = 0 <;>
  by_cases hp : io.pattern = "random" <;>
  simp_all <;>
  split_ifs <;>
  simp_all <;>
  omega

/-- Witness for C8 at a concrete mixed random workload (read 70%). -/
theorem C8_fio_command_witness :
    (0 : Int) ≤
      ({ pattern := "random", block_size := "4k", read_percent := 70,
         io_depth := 32, num_jobs := 1, useDirect := true } :
        WorkloadExecutor.IOParams).read_percent ∧
    ({ pattern := "random", block_size := "4k", read_percent := 70,
       io_depth := 32, num_jobs := 1, useDirect := true } :
      WorkloadExecutor.IOParams).read_percent ≤ 100 ∧
    WorkloadExecutor.FioCommandClaim
      { pattern := "random", block_size := "4k", read_percent := 70,
        io_depth := 32, num_jobs := 1, useDirect := true }
      { duration := 60, rampTime := 0, file_size := "1G" }
      "/mnt/scale_test" "c1" :=
  ⟨by decide, by decide,
   C8_fio_command
     { pattern := "random", block_size := "4k", read_percent := 70,
       io_depth := 32, num_jobs := 1, useDirect := true }
     { duration := 60, rampTime := 0, file_size := "1G" }
     "/mnt/scale_test" "c1" (by decide) (by decide)⟩
